import Mathlib

/-!
Shallow embedding of `simple-invaders/src/lib.rs` (the simulation core of the
`pixels` Space Invaders example) together with theorems checking the
natural-language specification against it.

Modelling conventions:
* `std::time::Duration` values are modelled as exact nanosecond counts (`Nat`);
  Rust `Duration` arithmetic on this range is exact.
* The `controls`, `loader` and `sprites` modules are external collaborators that
  are not part of the core source file; the few pieces of them the core touches
  (`Controls`, `load_assets`, `SpriteRef::animate`, `Sprite`, `blit`) are
  modelled from the specification's collaborator contracts, as marked on each
  definition.  `load_assets` is modelled by passing the loaded `Assets` table
  as a parameter to `World.new`.
* The unbounded `while` loops are modelled as follows: the skip-empty-cells
  search in `step_invaders` takes an explicit iteration bound (`fuel`), with
  `none` meaning the Rust loop has not exited within that many iterations; the
  timer drain loop in `update` is structurally terminating (each iteration
  removes one positive frame's worth of nanoseconds) and is defined by
  well-founded recursion on the accumulated time.
-/

/-- The screen width is constant (units are in pixels). -/
def SCREEN_WIDTH : Nat := 224

/-- The screen height is constant (units are in pixels). -/
def SCREEN_HEIGHT : Nat := 256

/-- Invader positioning: number of grid rows. -/
def ROWS : Nat := 5

/-- Invader positioning: number of grid columns. -/
def COLS : Nat := 11

/-- A tiny position vector. -/
structure Point where
  x : Nat
  y : Nat
deriving DecidableEq

/-- Component-wise addition (`impl Add for Point`). -/
instance : Add Point :=
  ⟨fun a b => ⟨a.x + b.x, a.y + b.y⟩⟩

/-- Component-wise multiplication (`impl Mul for Point`). -/
instance : Mul Point :=
  ⟨fun a b => ⟨a.x * b.x, a.y * b.y⟩⟩

/-- Invader positioning: `START`. -/
def START : Point := ⟨24, 60⟩

/-- Invader positioning: `GRID` cell spacing. -/
def GRID : Point := ⟨16, 16⟩

/-- Modelled from the spec: the sprite-identifier enumeration of the external
`sprites` module (only the identifiers used by the core source file). -/
inductive Frame where
  | Blipjoy1
  | Ferris1
  | Cthulhu1
  | Player1
  | Shield1
deriving DecidableEq

/-- Modelled from the spec: what the asset-table lookup exposes for one sprite
identifier — pixel width, pixel height, and animation frame count. -/
structure SpriteMeta where
  width : Nat
  height : Nat
  frame_count : Nat
deriving DecidableEq

/-- Modelled from the spec: the opaque asset table produced by the external
loader.  `meta` is the `lookup(identifier)` contract; `pixel f i k` is byte `k`
of animation frame `i` of sprite `f` (the `frame_pixels` part of the
contract). -/
structure Assets where
  meta : Frame → SpriteMeta
  pixel : Frame → Nat → Nat → Nat

/-- Modelled from the spec: a shared sprite handle — an immutable reference
into the asset table plus a per-instance animation cursor. -/
structure SpriteRef where
  frame : Frame
  index : Nat
deriving DecidableEq

/-- Modelled from the spec: `SpriteRef::new(assets, frame)` — cursor starts at
frame index 0. -/
def SpriteRef.new (_assets : Assets) (f : Frame) : SpriteRef :=
  ⟨f, 0⟩

/-- Modelled from the spec: `SpriteRef::animate(assets)` advances the animation
cursor by exactly one frame, wrapping modulo the frame count. -/
def SpriteRef.animate (s : SpriteRef) (assets : Assets) : SpriteRef :=
  { s with index := (s.index + 1) % (assets.meta s.frame).frame_count }

/-- Modelled from the spec: a `Sprite` owns a private mutable copy of its
bitmap (used by shields). -/
structure Sprite where
  frame : Frame
  pixels : Nat → Nat

/-- Modelled from the spec: `Sprite::new(assets, frame)` copies the template's
current-frame bitmap out of the asset table. -/
def Sprite.new (assets : Assets) (f : Frame) : Sprite :=
  ⟨f, assets.pixel f 0⟩

/-- Everything you ever wanted to know about Invaders. -/
structure Invader where
  sprite : SpriteRef
  pos : Point
  score : Nat
deriving DecidableEq

/-- The stepper will linearly walk through the 2D vector of invaders. -/
structure Stepper where
  row : Nat
  col : Nat
deriving DecidableEq

/-- Creates a boundary around the live invaders. -/
structure Bounds where
  left : Nat
  right : Nat
  bottom : Nat
deriving DecidableEq

/-- A formation of invaders. -/
structure Invaders where
  grid : List (List (Option Invader))
  stepper : Stepper
  bounds : Bounds
deriving DecidableEq

/-- The player entity. -/
structure Player where
  sprite : SpriteRef
  pos : Point

/-- The shield entity. -/
structure Shield where
  sprite : Sprite
  pos : Point

/-- The laser entity. -/
structure Laser where
  sprite : SpriteRef
  pos : Point

/-- The cannon entity. -/
structure Bullet where
  sprite : SpriteRef
  pos : Point

/-- Modelled from the spec: the direction part of the player input of the
external `controls` module. -/
inductive Direction where
  | Left
  | Right
  | Neutral
deriving DecidableEq

/-- Modelled from the spec: the player input `{direction, firing}` of the
external `controls` module. -/
structure Controls where
  direction : Direction
  firing : Bool
deriving DecidableEq

/-- The world of the `World::update` and `World::draw` methods. -/
structure World where
  invaders : Invaders
  lasers : List Laser
  shields : List Shield
  player : Player
  bullets : List Bullet
  score : Nat
  assets : Assets
  screen : List Nat
  timing : Nat

/-- `Duration::new(0, 16_666_667)` — one fixed simulation frame, in
nanoseconds. -/
def one_frame : Nat := 16666667

/-- Reading `grid[row][col]` (in-bounds reads only ever happen in the source;
out-of-range indices are mapped to an empty cell). -/
def gridGet (g : List (List (Option Invader))) (row col : Nat) : Option Invader :=
  ((g[row]?.getD [])[col]?.getD none)

/-- Writing `grid[row][col] = v`. -/
def setCell (g : List (List (Option Invader))) (row col : Nat)
    (v : Option Invader) : List (List (Option Invader)) :=
  g.set row ((g[row]?.getD []).set col v)

/-- `BLIPJOY_OFFSET` from `make_invader_grid`. -/
def BLIPJOY_OFFSET : Point := ⟨3, 4⟩

/-- `FERRIS_OFFSET` from `make_invader_grid`. -/
def FERRIS_OFFSET : Point := ⟨3, 5⟩

/-- Create a grid of invaders (`make_invader_grid`):
row 0 is Blipjoy invaders, rows 1–2 Ferris, rows 3–4 Cthulhu, each cell at
`START + offset + Point::new(x, y) * GRID` with score 10. -/
def make_invader_grid (assets : Assets) : List (List (Option Invader)) :=
  ((List.range' 0 1).map fun y =>
    (List.range COLS).map fun x =>
      some { sprite := SpriteRef.new assets Frame.Blipjoy1
             pos := START + BLIPJOY_OFFSET + Point.mk x y * GRID
             score := 10 })
  ++ ((List.range' 1 2).map fun y =>
    (List.range COLS).map fun x =>
      some { sprite := SpriteRef.new assets Frame.Ferris1
             pos := START + FERRIS_OFFSET + Point.mk x y * GRID
             score := 10 })
  ++ ((List.range' 3 2).map fun y =>
    (List.range COLS).map fun x =>
      some { sprite := SpriteRef.new assets Frame.Cthulhu1
             pos := START + BLIPJOY_OFFSET + Point.mk x y * GRID
             score := 10 })

/-- `Stepper::incr`: advance the cursor by one cell and return the new
`(col, row)` pair. -/
def Stepper.incr (s : Stepper) : Stepper × Nat × Nat :=
  let col := s.col + 1
  if COLS ≤ col then
    let row := if s.row = 0 then ROWS - 1 else s.row - 1
    (⟨row, 0⟩, 0, row)
  else
    (⟨s.row, col⟩, col, s.row)

/-- `impl Default for Stepper`: start at `(row 0, col COLS-1)`. -/
def Stepper.start : Stepper := ⟨0, COLS - 1⟩

/-- `impl Default for Bounds`. -/
def Bounds.start : Bounds :=
  ⟨START.x, START.x + COLS * GRID.x, START.y + ROWS * GRID.y⟩

/-- The `while let None` search of `World::step_invaders`: keep calling
`Stepper::incr` until the grid cell it lands on is occupied.  The Rust loop is
unbounded; `fuel` bounds the modelled iteration count, and `none` means the
loop has not exited within `fuel` iterations. -/
def findNext : Nat → List (List (Option Invader)) → Stepper →
    Option (Stepper × Nat × Nat × Invader)
  | 0, _, _ => none
  | fuel + 1, g, s =>
    match s.incr with
    | (s', col, row) =>
      match gridGet g row col with
      | some invader => some (s', col, row, invader)
      | none => findNext fuel g s'

/-- `World::step_invaders` restricted to the state it actually touches
(`self.invaders`, reading `self.assets`): find the next occupied cell — the
search is given `ROWS*COLS` fuel, which is enough whenever any cell is
occupied — and animate the invader found there.  `none` models the Rust loop
diverging. -/
def step_invaders (assets : Assets) (inv : Invaders) : Option Invaders :=
  match findNext (ROWS * COLS) inv.grid inv.stepper with
  | some (s', col, row, invader) =>
    some { inv with
           stepper := s'
           grid := setCell inv.grid row col
             (some { invader with sprite := invader.sprite.animate assets }) }
  | none => none

/-- The `while self.timing >= one_frame` drain loop of `World::update`:
subtract one frame and run one `step_invaders` per iteration.  Returns the new
invaders, the leftover timing, and the number of simulation ticks performed;
`none` models `step_invaders` diverging. -/
def updateLoop (assets : Assets) (inv : Invaders) (timing : Nat) :
    Option (Invaders × Nat × Nat) :=
  if h : one_frame ≤ timing then
    (step_invaders assets inv).bind fun inv' =>
      (updateLoop assets inv' (timing - one_frame)).map fun r => (r.1, r.2.1, r.2.2 + 1)
  else
    some (inv, timing, 0)
termination_by timing
decreasing_by
  exact Nat.sub_lt (Nat.lt_of_lt_of_le (by decide) h) (by decide)

/-- `World::update(dt, controls)`: advance the timer by the delta time, then
step the invaders once per elapsed frame.  The returned `Nat` is the number of
simulation ticks performed (an observation of the loop, not program state);
`none` models the stepping loop diverging. -/
def World.update (w : World) (dt : Nat) (_controls : Controls) :
    Option (World × Nat) :=
  match updateLoop w.assets w.invaders (w.timing + dt) with
  | some (inv, t, n) => some ({ w with invaders := inv, timing := t }, n)
  | none => none

/-- `World::clear` on the raw byte buffer: every 4th byte (alpha) is 255, the
rest are 0. -/
def clearBytes (screen : List Nat) : List Nat :=
  screen.enum.map fun p => if p.1 % 4 = 3 then 255 else 0

/-- Clear the screen (`World::clear`). -/
def World.clear (w : World) : World :=
  { w with screen := clearBytes w.screen }

/-- Modelled from the spec: the external blit primitive — copies the sprite's
current-frame pixels into the buffer at `pos` (byte `k` of the frame goes to
row `pos.y + k / (width*4)`, byte offset `pos.x * 4 + k % (width*4)` of the
RGBA row-major buffer). -/
def blit (assets : Assets) (screen : List Nat) (pos : Point) (s : SpriteRef) :
    List Nat :=
  let m := assets.meta s.frame
  (List.range (m.height * m.width * 4)).foldl
    (fun buf k =>
      buf.set ((pos.y + k / (m.width * 4)) * SCREEN_WIDTH * 4 + pos.x * 4 + k % (m.width * 4))
        (assets.pixel s.frame s.index k))
    screen

/-- `World::draw`: clear the screen, blit every occupied grid cell in
row-major order, and return the buffer (paired with the post-call `World`,
since the Rust method mutates `self.screen` in place). -/
def World.draw (w : World) : World × List Nat :=
  let w₁ := w.clear
  let screen := w.invaders.grid.foldl
    (fun scr row =>
      row.foldl
        (fun scr cell =>
          match cell with
          | some invader => blit w.assets scr invader.pos invader.sprite
          | none => scr)
        scr)
    w₁.screen
  ({ w₁ with screen := screen }, screen)

/-- `World::new()` (the external `load_assets()` result is passed in as a
parameter). -/
def World.new (assets : Assets) : World :=
  { invaders :=
      { grid := make_invader_grid assets
        stepper := Stepper.start
        bounds := Bounds.start }
    lasers := []
    shields := (List.range 4).map fun i =>
      { sprite := Sprite.new assets Frame.Shield1
        pos := Point.mk (i * 45 + 32) 192 }
    player :=
      { sprite := SpriteRef.new assets Frame.Player1
        pos := Point.mk 80 216 }
    bullets := []
    score := 0
    assets := assets
    screen := List.replicate (SCREEN_WIDTH * SCREEN_HEIGHT * 4) 0
    timing := 0 }

/-- Feeding a whole list of delta times to `World::update`, one call per
element, accumulating the tick counts. -/
def runUpdates (w : World) (c : Controls) : List Nat → Option (World × Nat)
  | [] => some (w, 0)
  | d :: ds =>
    (w.update d c).bind fun p =>
      (runUpdates p.1 c ds).map fun q => (q.1, p.2 + q.2)

/-- A concrete sample asset table (8×8 sprites with two animation frames),
used to instantiate theorems at concrete inputs. -/
def sampleAssets : Assets :=
  { meta := fun _ => ⟨8, 8, 2⟩
    pixel := fun _ _ _ => 0 }

/-- Iterating `Stepper::incr` (keeping only the cursor state). -/
def stepperIter : Nat → Stepper → Stepper
  | 0, s => s
  | n + 1, s => stepperIter n s.incr.1

/-- Number of occupied cells of a grid. -/
def occupiedCount (g : List (List (Option Invader))) : Nat :=
  (g.map fun row => row.countP fun c => c.isSome).sum

/-- The sprite template a grid row is populated with (row 0: Blipjoy,
rows 1–2: Ferris, rows 3–4: Cthulhu). -/
def bandFrame (r : Nat) : Frame :=
  if r = 0 then Frame.Blipjoy1 else if r < 3 then Frame.Ferris1 else Frame.Cthulhu1

/-- The pixel offset a grid row's band uses. -/
def bandOffset (r : Nat) : Point :=
  if r = 0 then BLIPJOY_OFFSET else if r < 3 then FERRIS_OFFSET else BLIPJOY_OFFSET

/-- The fully destroyed formation: every one of the `ROWS × COLS` cells is
empty. -/
def emptyGrid : List (List (Option Invader)) :=
  List.replicate ROWS (List.replicate COLS none)

lemma incr_col_lt (s : Stepper) : s.incr.1.col < COLS := by
  unfold Stepper.incr
  by_cases h : COLS ≤ s.col + 1
  · simp [h]
    decide
  · simp [h]
    omega

lemma incr_row_lt (s : Stepper) (h : s.row < ROWS) : s.incr.1.row < ROWS := by
  unfold Stepper.incr
  by_cases hc : COLS ≤ s.col + 1
  · by_cases hr : s.row = 0 <;> simp [hc, hr] <;> omega
  · simpa [hc] using h

lemma incr_snd (s : Stepper) : s.incr.2 = (s.incr.1.col, s.incr.1.row) := by
  unfold Stepper.incr
  by_cases h : COLS ≤ s.col + 1 <;> simp [h]

lemma make_grid_cell (assets : Assets) (r c : Nat) (hr : r < ROWS) (hc : c < COLS) :
    gridGet (make_invader_grid assets) r c =
      some ⟨⟨bandFrame r, 0⟩, START + bandOffset r + Point.mk c r * GRID, 10⟩ := by
  have hr5 : r < 5 := hr
  have hc11 : c < 11 := hc
  interval_cases r <;> interval_cases c <;> rfl

lemma make_grid_length (assets : Assets) : (make_invader_grid assets).length = ROWS := rfl

lemma make_grid_rows (assets : Assets) :
    ∀ row ∈ make_invader_grid assets, row.length = COLS := by
  intro row h
  unfold make_invader_grid at h
  rcases List.mem_append.1 h with h | h
  · rcases List.mem_append.1 h with h | h <;>
    · obtain ⟨y, _, rfl⟩ := List.mem_map.1 h
      simp
  · obtain ⟨y, _, rfl⟩ := List.mem_map.1 h
    simp

/-- Shape invariant of the formation grid: `ROWS` rows of `COLS` cells. -/
def GridShape (g : List (List (Option Invader))) : Prop :=
  g.length = ROWS ∧ ∀ row ∈ g, row.length = COLS

/-- Occupancy invariant: every cell of the grid holds an invader. -/
def GridFull (g : List (List (Option Invader))) : Prop :=
  ∀ r c, r < ROWS → c < COLS → (gridGet g r c).isSome

/-- Invariant of the `Invaders` aggregate preserved by the simulation. -/
def InvOk (inv : Invaders) : Prop :=
  GridShape inv.grid ∧ GridFull inv.grid ∧ inv.stepper.row < ROWS

lemma length_setCell (g : List (List (Option Invader))) (r c : Nat) (v : Option Invader) :
    (setCell g r c v).length = g.length :=
  List.length_set g r _

lemma shape_setCell {g : List (List (Option Invader))} (hs : GridShape g)
    {r : Nat} (hr : r < ROWS) (c : Nat) (v : Option Invader) :
    GridShape (setCell g r c v) := by
  have hrl : r < g.length := by rw [hs.1]; exact hr
  refine ⟨by rw [length_setCell]; exact hs.1, ?_⟩
  intro row h
  rcases List.mem_or_eq_of_mem_set h with h | rfl
  · exact hs.2 row h
  · rw [List.length_set, List.getElem?_eq_getElem hrl]
    simp only [Option.getD_some]
    exact hs.2 _ (List.getElem_mem hrl)

lemma gridGet_setCell_same {g : List (List (Option Invader))} (hs : GridShape g)
    {r c : Nat} (hr : r < ROWS) (hc : c < COLS) (v : Option Invader) :
    gridGet (setCell g r c v) r c = v := by
  have hrl : r < g.length := by rw [hs.1]; exact hr
  unfold gridGet setCell
  rw [List.getElem?_set_eq_of_lt _ hrl]
  simp only [Option.getD_some]
  have hcl : c < ((g[r]?.getD [])).length := by
    rw [List.getElem?_eq_getElem hrl]
    simpa using (hs.2 _ (List.getElem_mem hrl)) ▸ hc
  rw [List.getElem?_set_eq_of_lt _ hcl]
  rfl

lemma gridGet_setCell_other {g : List (List (Option Invader))} (hs : GridShape g)
    {r c : Nat} (hr : r < ROWS) (v : Option Invader) (r' c' : Nat)
    (h : ¬(r = r' ∧ c = c')) : gridGet (setCell g r c v) r' c' = gridGet g r' c' := by
  unfold gridGet setCell
  by_cases hrr : r = r'
  · subst hrr
    have hcc : c ≠ c' := fun hc => h ⟨rfl, hc⟩
    have hrl : r < g.length := by rw [hs.1]; exact hr
    rw [List.getElem?_set_eq_of_lt _ hrl]
    simp only [Option.getD_some]
    rw [List.getElem?_set_ne hcc]
  · rw [List.getElem?_set_ne hrr]

lemma findNext_of_full {g : List (List (Option Invader))} (hf : GridFull g)
    {s : Stepper} (hrow : s.row < ROWS) (fuel : Nat) :
    ∃ i, gridGet g s.incr.1.row s.incr.1.col = some i ∧
      findNext (fuel + 1) g s = some (s.incr.1, s.incr.1.col, s.incr.1.row, i) := by
  have hc := incr_col_lt s
  have hr := incr_row_lt s hrow
  obtain ⟨i, hi⟩ := Option.isSome_iff_exists.1 (hf _ _ hr hc)
  refine ⟨i, hi, ?_⟩
  have e1 : s.incr.2.1 = s.incr.1.col := by rw [incr_snd]
  have e2 : s.incr.2.2 = s.incr.1.row := by rw [incr_snd]
  have step : findNext (fuel + 1) g s =
      match gridGet g s.incr.2.2 s.incr.2.1 with
      | some invader => some (s.incr.1, s.incr.2.1, s.incr.2.2, invader)
      | none => findNext fuel g s.incr.1 := rfl
  rw [step, e1, e2, hi]

lemma step_invaders_of_ok (assets : Assets) {inv : Invaders} (h : InvOk inv) :
    ∃ i, gridGet inv.grid inv.stepper.incr.1.row inv.stepper.incr.1.col = some i ∧
      step_invaders assets inv = some
        { inv with
          stepper := inv.stepper.incr.1
          grid := setCell inv.grid inv.stepper.incr.1.row inv.stepper.incr.1.col
            (some { i with sprite := i.sprite.animate assets }) } := by
  obtain ⟨i, hi, hfind⟩ := findNext_of_full h.2.1 h.2.2 54
  refine ⟨i, hi, ?_⟩
  unfold step_invaders
  rw [show ROWS * COLS = 54 + 1 from rfl, hfind]

lemma InvOk_step (assets : Assets) {inv inv' : Invaders} (h : InvOk inv)
    (e : step_invaders assets inv = some inv') : InvOk inv' := by
  obtain ⟨i, hi, hstep⟩ := step_invaders_of_ok assets h
  rw [hstep] at e
  injection e with e
  subst e
  have hr' := incr_row_lt inv.stepper h.2.2
  have hc' := incr_col_lt inv.stepper
  refine ⟨shape_setCell h.1 hr' _ _, ?_, hr'⟩
  intro r c hr hc
  by_cases hrc : inv.stepper.incr.1.row = r ∧ inv.stepper.incr.1.col = c
  · obtain ⟨rfl, rfl⟩ := hrc
    rw [gridGet_setCell_same h.1 hr hc]
    rfl
  · rw [gridGet_setCell_other h.1 hr' _ r c hrc]
    exact h.2.1 r c hr hc

lemma step_invaders_ok (assets : Assets) {inv : Invaders} (h : InvOk inv) :
    ∃ inv', step_invaders assets inv = some inv' ∧ InvOk inv' := by
  obtain ⟨i, _, hstep⟩ := step_invaders_of_ok assets h
  exact ⟨_, hstep, InvOk_step assets h hstep⟩

lemma updateLoop_of_ok (assets : Assets) :
    ∀ t : Nat, ∀ inv : Invaders, InvOk inv →
      ∃ inv', updateLoop assets inv t = some (inv', t % one_frame, t / one_frame) ∧
        InvOk inv' := by
  intro t
  induction t using Nat.strong_induction_on with
  | _ t ih =>
    intro inv h
    by_cases hf : one_frame ≤ t
    · obtain ⟨inv₁, hstep, h₁⟩ := step_invaders_ok assets h
      obtain ⟨inv', e, h'⟩ :=
        ih (t - one_frame) (Nat.sub_lt (Nat.lt_of_lt_of_le (by decide) hf) (by decide)) inv₁ h₁
      refine ⟨inv', ?_, h'⟩
      rw [updateLoop, dif_pos hf, hstep, Option.some_bind, e, Option.map_some']
      have hmod : (t - one_frame) % one_frame = t % one_frame := by
        conv_rhs => rw [← Nat.sub_add_cancel hf]
        rw [Nat.add_mod_right]
      have hdiv : (t - one_frame) / one_frame + 1 = t / one_frame := by
        conv_rhs => rw [← Nat.sub_add_cancel hf]
        rw [Nat.add_div_right _ (by decide : 0 < one_frame)]
      rw [hmod, hdiv]
    · refine ⟨inv, ?_, h⟩
      rw [updateLoop, dif_neg hf, Nat.mod_eq_of_lt (Nat.lt_of_not_le hf),
        Nat.div_eq_of_lt (Nat.lt_of_not_le hf)]

lemma update_of_ok {w : World} (dt : Nat) (c : Controls) (h : InvOk w.invaders) :
    ∃ w', w.update dt c = some (w', (w.timing + dt) / one_frame) ∧
      w'.timing = (w.timing + dt) % one_frame ∧ InvOk w'.invaders ∧
      w'.timing < one_frame ∧ w'.score = w.score ∧ w'.screen = w.screen := by
  obtain ⟨inv', e, h'⟩ := updateLoop_of_ok w.assets (w.timing + dt) w.invaders h
  refine ⟨{ w with invaders := inv', timing := (w.timing + dt) % one_frame }, ?_, rfl, h',
    Nat.mod_lt _ (by decide), rfl, rfl⟩
  unfold World.update
  rw [e]

lemma new_invOk (assets : Assets) : InvOk (World.new assets).invaders := by
  refine ⟨⟨make_grid_length assets, make_grid_rows assets⟩, ?_, ?_⟩
  · intro r c hr hc
    rw [show (World.new assets).invaders.grid = make_invader_grid assets from rfl,
      make_grid_cell assets r c hr hc]
    rfl
  · show Stepper.start.row < ROWS
    decide

lemma runUpdates_of_ok (c : Controls) :
    ∀ ds : List Nat, ∀ w : World, InvOk w.invaders → w.timing < one_frame →
      ∃ w', runUpdates w c ds = some (w', (w.timing + ds.sum) / one_frame) ∧
        w'.timing = (w.timing + ds.sum) % one_frame ∧ InvOk w'.invaders := by
  intro ds
  induction ds with
  | nil =>
    intro w h ht
    exact ⟨w, by
      simp only [runUpdates, List.sum_nil, Nat.add_zero]
      rw [Nat.div_eq_of_lt ht], by
      simp only [List.sum_nil, Nat.add_zero]
      rw [Nat.mod_eq_of_lt ht], h⟩
  | cons d ds ih =>
    intro w h ht
    obtain ⟨w₁, e₁, ht₁, h₁, hlt₁, _, _⟩ := update_of_ok d c h
    obtain ⟨w', e', ht', h'⟩ := ih w₁ h₁ (ht₁ ▸ Nat.mod_lt _ (by decide))
    refine ⟨w', ?_, ?_, h'⟩
    · show (w.update d c).bind
        (fun p => (runUpdates p.1 c ds).map fun q => (q.1, p.2 + q.2)) = _
      simp only [e₁, Option.some_bind, e', Option.map_some', ht₁]
      have key : (w.timing + d) / one_frame + ((w.timing + d) % one_frame + ds.sum) / one_frame
          = (w.timing + (d + ds.sum)) / one_frame := by
        conv_rhs => rw [← Nat.add_assoc, ← Nat.div_add_mod (w.timing + d) one_frame,
          Nat.add_assoc]
        rw [Nat.mul_add_div (by decide : 0 < one_frame)]
      rw [List.sum_cons, key]
    · rw [ht', ht₁, List.sum_cons, Nat.mod_add_mod, Nat.add_assoc]

lemma gridGet_empty (r c : Nat) : gridGet emptyGrid r c = none := by
  unfold gridGet emptyGrid
  rw [List.getElem?_replicate]
  by_cases hr : r < ROWS
  · rw [if_pos hr]
    simp only [Option.getD_some]
    rw [List.getElem?_replicate]
    by_cases hc : c < COLS
    · rw [if_pos hc]
      rfl
    · rw [if_neg hc]
      rfl
  · rw [if_neg hr]
    rfl

lemma clearBytes_length (screen : List Nat) : (clearBytes screen).length = screen.length := by
  simp [clearBytes]

lemma foldl_set_length : ∀ (xs : List Nat) (l : List Nat) (idx val : Nat → Nat),
    (xs.foldl (fun b k => b.set (idx k) (val k)) l).length = l.length := by
  intro xs
  induction xs with
  | nil => intro l idx val; rfl
  | cons a as ih =>
    intro l idx val
    show (as.foldl (fun b k => b.set (idx k) (val k)) (l.set (idx a) (val a))).length = _
    rw [ih, List.length_set]

lemma blit_length (assets : Assets) (scr : List Nat) (pos : Point) (s : SpriteRef) :
    (blit assets scr pos s).length = scr.length := by
  unfold blit
  exact foldl_set_length _ _ _ _

lemma draw_row_length (assets : Assets) :
    ∀ (cells : List (Option Invader)) (scr : List Nat),
    (cells.foldl
      (fun scr cell =>
        match cell with
        | some invader => blit assets scr invader.pos invader.sprite
        | none => scr)
      scr).length = scr.length := by
  intro cells
  induction cells with
  | nil => intro scr; rfl
  | cons cell cells ih =>
    intro scr
    cases cell with
    | some invader =>
      show (cells.foldl _ (blit assets scr invader.pos invader.sprite)).length = _
      rw [ih, blit_length]
    | none => exact ih scr

lemma draw_grid_length (assets : Assets) :
    ∀ (rows : List (List (Option Invader))) (scr : List Nat),
    (rows.foldl
      (fun scr row =>
        row.foldl
          (fun scr cell =>
            match cell with
            | some invader => blit assets scr invader.pos invader.sprite
            | none => scr)
          scr)
      scr).length = scr.length := by
  intro rows
  induction rows with
  | nil => intro scr; rfl
  | cons row rows ih =>
    intro scr
    show (rows.foldl _ (row.foldl _ scr)).length = _
    rw [ih, draw_row_length]

/-- Transcription of the spec's §4.2 traversal algorithm, following its words:
increment `col`; if `col` overflows `COLS`, reset `col` to 0 and move to the
previous row (`row - 1`), wrapping from row 0 to row `ROWS - 1`. -/
def advance_spec (s : Stepper) : Stepper :=
  if COLS ≤ s.col + 1 then
    { row := if s.row = 0 then ROWS - 1 else s.row - 1, col := 0 }
  else
    { row := s.row, col := s.col + 1 }

/-- Claim C5: each `advance()` call increments `col` by one; when `col`
overflows `COLS` it resets `col` to 0 and moves to the previous row, wrapping
from row 0 to row `ROWS - 1`; this describes `Stepper::incr` completely, for
every starting cursor state (both the stored cursor and the returned
`(col, row)` pair). -/
theorem stepper_incr_matches_spec : ∀ s : Stepper,
    s.incr.1 = advance_spec s ∧
    s.incr.2 = ((advance_spec s).col, (advance_spec s).row) := by
  intro s
  unfold Stepper.incr advance_spec
  by_cases h : COLS ≤ s.col + 1 <;> simp [h]

lemma stepperIter_valid : ∀ (n : Nat) (s : Stepper), s.row < ROWS → s.col < COLS →
    (stepperIter n s).row < ROWS ∧ (stepperIter n s).col < COLS := by
  intro n
  induction n with
  | zero => intro s hr hc; exact ⟨hr, hc⟩
  | succ n ih =>
    intro s hr _
    exact ih s.incr.1 (incr_row_lt s hr) (incr_col_lt s)

set_option maxRecDepth 4000 in
/-- Claim C6: after each `advance()` call from the initial state the cursor is
a valid grid index (`row < ROWS`, `col < COLS`), and `ROWS * COLS` calls of
`advance()` return the stepper to its initial state (the traversal is cyclic
with period `ROWS * COLS`). -/
theorem stepper_valid_and_cyclic :
    (∀ n : Nat, (stepperIter (n + 1) Stepper.start).row < ROWS ∧
      (stepperIter (n + 1) Stepper.start).col < COLS) ∧
    stepperIter (ROWS * COLS) Stepper.start = Stepper.start := by
  constructor
  · intro n
    show ((stepperIter n Stepper.start.incr.1).row < ROWS ∧
      (stepperIter n Stepper.start.incr.1).col < COLS)
    exact stepperIter_valid n _ (incr_row_lt _ (by decide)) (incr_col_lt _)
  · decide

/-- Claim C1 counterexample: the first `advance()` from the initial state does
not land on grid cell `(row 0, col 0)` — it returns `(col 0, row 4)`, and the
first occupied cell found by the search on a freshly constructed grid is
`(row 4, col 0)`, not `(row 0, col 0)`. -/
theorem first_advance_counterexample :
    Stepper.start.incr.2 = (0, 4) ∧
    ((0 : Nat), (4 : Nat)) ≠ ((0 : Nat), (0 : Nat)) ∧
    (findNext (ROWS * COLS) (make_invader_grid sampleAssets) Stepper.start).map
      (fun q => (q.2.2.1, q.2.1)) = some (4, 0) ∧
    ((4 : Nat), (0 : Nat)) ≠ ((0 : Nat), (0 : Nat)) := by
  refine ⟨rfl, by decide, rfl, by decide⟩

/-- Claim C1 as amended: from the initial state `(row 0, col COLS-1)`, the
first `advance()` returns `(col 0, row ROWS-1)` — the cursor wraps to the
bottom grid row — and the invader updated by the first simulation tick of a
freshly constructed `World` is the one at grid cell `(row 4, col 0)` (the
Cthulhu invader at pixel position `(27, 128)`). -/
theorem first_advance_target : ∀ assets : Assets,
    Stepper.start.incr = (⟨ROWS - 1, 0⟩, 0, ROWS - 1) ∧
    findNext (ROWS * COLS) (make_invader_grid assets) Stepper.start =
      some (⟨4, 0⟩, 0, 4, ⟨⟨Frame.Cthulhu1, 0⟩, ⟨27, 128⟩, 10⟩) :=
  fun _ => ⟨rfl, rfl⟩

/-- Claim C2: on a fully emptied formation the `while let None` search of
`step_invaders` never finds a cell, for any number of loop iterations — the
Rust loop never terminates and no empty-formation condition is signalled
(`step_invaders` has no exit path on the all-empty grid). -/
theorem findNext_empty_grid_never_finds :
    (∀ (fuel : Nat) (s : Stepper), findNext fuel emptyGrid s = none) ∧
    (∀ (assets : Assets) (s : Stepper) (b : Bounds),
      step_invaders assets ⟨emptyGrid, s, b⟩ = none) := by
  have main : ∀ (fuel : Nat) (s : Stepper), findNext fuel emptyGrid s = none := by
    intro fuel
    induction fuel with
    | zero => intro s; rfl
    | succ n ih =>
      intro s
      have step : findNext (n + 1) emptyGrid s =
          match gridGet emptyGrid s.incr.2.2 s.incr.2.1 with
          | some invader => some (s.incr.1, s.incr.2.1, s.incr.2.2, invader)
          | none => findNext n emptyGrid s.incr.1 := rfl
      rw [step, gridGet_empty]
      exact ih s.incr.1
  refine ⟨main, ?_⟩
  intro assets s b
  unfold step_invaders
  rw [show (Invaders.mk emptyGrid s b).grid = emptyGrid from rfl,
    show (Invaders.mk emptyGrid s b).stepper = s from rfl, main]

/-- Claim C4: immediately after construction all `ROWS * COLS = 55` grid cells
are occupied; the band constants are as documented (`start_origin (24,60)`,
`cell_spacing (16,16)`, offsets `(3,4)/(3,5)/(3,4)`, templates
Blipjoy/Ferris/Cthulhu by row band); and the invader at cell `(col, row)` sits
at `start_origin + band_offset + (col, row) * cell_spacing`. -/
theorem grid_population : ∀ assets : Assets,
    occupiedCount (make_invader_grid assets) = 55 ∧
    ROWS * COLS = 55 ∧
    (START = ⟨24, 60⟩ ∧ GRID = ⟨16, 16⟩ ∧
      bandOffset 0 = ⟨3, 4⟩ ∧ bandOffset 1 = ⟨3, 5⟩ ∧ bandOffset 2 = ⟨3, 5⟩ ∧
      bandOffset 3 = ⟨3, 4⟩ ∧ bandOffset 4 = ⟨3, 4⟩ ∧
      bandFrame 0 = Frame.Blipjoy1 ∧ bandFrame 1 = Frame.Ferris1 ∧
      bandFrame 2 = Frame.Ferris1 ∧ bandFrame 3 = Frame.Cthulhu1 ∧
      bandFrame 4 = Frame.Cthulhu1) ∧
    ∀ r c : Nat, r < ROWS → c < COLS →
      gridGet (make_invader_grid assets) r c =
        some ⟨⟨bandFrame r, 0⟩, START + bandOffset r + Point.mk c r * GRID, 10⟩ := by
  intro assets
  exact ⟨rfl, rfl, ⟨rfl, rfl, rfl, rfl, rfl, rfl, rfl, rfl, rfl, rfl, rfl, rfl⟩,
    make_grid_cell assets⟩

/-- Witness for C4 at a concrete asset table and grid cell. -/
theorem grid_population_witness :
    ((0 : Nat) < ROWS ∧ (0 : Nat) < COLS) ∧
    gridGet (make_invader_grid sampleAssets) 0 0 =
      some ⟨⟨bandFrame 0, 0⟩, START + bandOffset 0 + Point.mk 0 0 * GRID, 10⟩ :=
  ⟨by decide, (grid_population sampleAssets).2.2.2 0 0 (by decide) (by decide)⟩

/-- Claim C3: from a freshly constructed `World`, feeding any sequence of
delta times to `update` performs in total exactly
`floor(sum of deltas / one_frame)` simulation ticks, the same count as one
single `update` call with the summed duration, and the fractional leftover
(`timing`) is carried forward losslessly (`sum % one_frame` in both cases). -/
theorem update_tick_count_drift_free : ∀ (assets : Assets) (c : Controls) (ds : List Nat),
    ∃ w₁ w₂ : World,
      runUpdates (World.new assets) c ds = some (w₁, ds.sum / one_frame) ∧
      w₁.timing = ds.sum % one_frame ∧
      (World.new assets).update ds.sum c = some (w₂, ds.sum / one_frame) ∧
      w₂.timing = ds.sum % one_frame := by
  intro assets c ds
  have hz : (World.new assets).timing + ds.sum = ds.sum := Nat.zero_add ds.sum
  have hlt : (World.new assets).timing < one_frame := by
    show (0 : Nat) < one_frame
    decide
  obtain ⟨w₁, e₁, ht₁, _⟩ :=
    runUpdates_of_ok c ds (World.new assets) (new_invOk assets) hlt
  obtain ⟨w₂, e₂, ht₂, _⟩ := update_of_ok ds.sum c (new_invOk assets)
  rw [hz] at e₁ ht₁ e₂ ht₂
  exact ⟨w₁, w₂, e₁, ht₁, e₂, ht₂⟩

/-- Claim C9 (noninterference): `update` is independent of the `controls`
argument — the parameter is ignored by the implementation, so any two control
inputs produce identical results on every state and delta time. -/
theorem update_ignores_controls : ∀ (w : World) (dt : Nat) (c₁ c₂ : Controls),
    w.update dt c₁ = w.update dt c₂ :=
  fun _ _ _ _ => rfl

/-- Claim C10 (frame condition): `draw` mutates only the pixel buffer — the
invader grid, stepper cursor, bounds, player, shields, lasers, bullets, score
and accumulated leftover timing are unchanged by the call. -/
theorem draw_mutates_only_screen : ∀ w : World,
    (World.draw w).1.invaders = w.invaders ∧
    (World.draw w).1.invaders.grid = w.invaders.grid ∧
    (World.draw w).1.invaders.stepper = w.invaders.stepper ∧
    (World.draw w).1.invaders.bounds = w.invaders.bounds ∧
    (World.draw w).1.player = w.player ∧
    (World.draw w).1.shields = w.shields ∧
    (World.draw w).1.lasers = w.lasers ∧
    (World.draw w).1.bullets = w.bullets ∧
    (World.draw w).1.score = w.score ∧
    (World.draw w).1.timing = w.timing :=
  fun _ => ⟨rfl, rfl, rfl, rfl, rfl, rfl, rfl, rfl, rfl, rfl⟩

/-- Claim C8: the screen buffer of a freshly constructed `World` has exactly
`SCREEN_WIDTH * SCREEN_HEIGHT * 4` bytes; `draw` returns a buffer of exactly
the same length as the stored screen (so always `SCREEN_WIDTH * SCREEN_HEIGHT
* 4` bytes on reachable worlds); and immediately after the clear step — before
any sprite compositing — every 4th byte (alpha) is 255 and every other byte is
0. -/
theorem render_buffer_shape :
    (∀ assets : Assets,
      (World.new assets).screen.length = SCREEN_WIDTH * SCREEN_HEIGHT * 4) ∧
    (∀ w : World, (World.draw w).2.length = w.screen.length) ∧
    (∀ w : World, ∀ i : Nat, i < w.screen.length →
      (clearBytes w.screen)[i]? = some (if i % 4 = 3 then 255 else 0)) := by
  refine ⟨?_, ?_, ?_⟩
  · intro assets
    show (List.replicate (SCREEN_WIDTH * SCREEN_HEIGHT * 4) (0 : Nat)).length = _
    rw [List.length_replicate]
  · intro w
    show (w.invaders.grid.foldl
      (fun scr row =>
        row.foldl
          (fun scr cell =>
            match cell with
            | some invader => blit w.assets scr invader.pos invader.sprite
            | none => scr)
          scr)
      (clearBytes w.screen)).length = w.screen.length
    rw [draw_grid_length, clearBytes_length]
  · intro w i hi
    unfold clearBytes
    rw [List.getElem?_map, List.getElem?_enum, List.getElem?_eq_getElem hi]
    rfl

/-- Witness for C8 at a concrete world and byte index. -/
theorem render_buffer_shape_witness :
    7 < (World.new sampleAssets).screen.length ∧
    (clearBytes (World.new sampleAssets).screen)[7]? = some 255 := by
  have h7 : 7 < (World.new sampleAssets).screen.length := by
    show 7 < (List.replicate (SCREEN_WIDTH * SCREEN_HEIGHT * 4) (0 : Nat)).length
    rw [List.length_replicate]
    decide
  refine ⟨h7, ?_⟩
  rw [render_buffer_shape.2.2 (World.new sampleAssets) 7 h7]
  decide

lemma update_eq_some {w : World} {dt : Nat} (c : Controls) {inv : Invaders} {t n : Nat}
    (e : updateLoop w.assets w.invaders (w.timing + dt) = some (inv, t, n)) :
    w.update dt c = some ({ w with invaders := inv, timing := t }, n) := by
  unfold World.update
  rw [e]

set_option maxRecDepth 4000 in
/-- Claim C7: one `update` call with `dt = 16_666_667` ns on a freshly
constructed `World` performs exactly one simulation tick; that tick advances
exactly one invader's animation cursor by exactly one frame — the invader the
stepper search lands on, at grid cell `(row 4, col 0)` — and leaves every
other grid cell (hence every other invader's sprite frame, position and
score), the player entity, the world score and all other state unchanged,
with the leftover timing at 0.  (The frame count of the animated sprite is
assumed to exceed 1, as every real sprite sheet's does; with a single-frame
sprite the wrap-around would leave the cursor in place.) -/
theorem single_tick_effect : ∀ (assets : Assets) (c : Controls),
    1 < (assets.meta Frame.Cthulhu1).frame_count →
    ∃ w' : World,
      (World.new assets).update 16666667 c = some (w', 1) ∧
      w'.invaders.grid = setCell (make_invader_grid assets) 4 0
        (some ⟨⟨Frame.Cthulhu1, 1⟩, ⟨27, 128⟩, 10⟩) ∧
      gridGet w'.invaders.grid 4 0 = some ⟨⟨Frame.Cthulhu1, 1⟩, ⟨27, 128⟩, 10⟩ ∧
      (∀ r k : Nat, ¬(r = 4 ∧ k = 0) →
        gridGet w'.invaders.grid r k = gridGet (make_invader_grid assets) r k) ∧
      w'.score = (World.new assets).score ∧
      w'.player = (World.new assets).player ∧
      w'.timing = 0 := by
  intro assets c h
  have hstep : step_invaders assets (World.new assets).invaders =
      some ⟨setCell (make_invader_grid assets) 4 0
        (some ⟨⟨Frame.Cthulhu1, (0 + 1) % (assets.meta Frame.Cthulhu1).frame_count⟩,
          ⟨27, 128⟩, 10⟩), ⟨4, 0⟩, Bounds.start⟩ := rfl
  rw [Nat.mod_eq_of_lt (show 0 + 1 < (assets.meta Frame.Cthulhu1).frame_count by omega)]
    at hstep
  have e1 : updateLoop (World.new assets).assets (World.new assets).invaders
      ((World.new assets).timing + 16666667) =
      some (⟨setCell (make_invader_grid assets) 4 0
        (some ⟨⟨Frame.Cthulhu1, 1⟩, ⟨27, 128⟩, 10⟩), ⟨4, 0⟩, Bounds.start⟩, 0, 1) := by
    rw [show (World.new assets).assets = assets from rfl,
      show (World.new assets).timing = 0 from rfl,
      show (0 : Nat) + 16666667 = one_frame from Nat.zero_add 16666667]
    rw [updateLoop, dif_pos (Nat.le_refl one_frame), hstep, Option.some_bind,
      show one_frame - one_frame = 0 from Nat.sub_self one_frame]
    rw [updateLoop, dif_neg (show ¬ one_frame ≤ 0 by decide), Option.map_some']
  have hshape : GridShape (make_invader_grid assets) :=
    ⟨make_grid_length assets, make_grid_rows assets⟩
  refine ⟨{ World.new assets with
      invaders := ⟨setCell (make_invader_grid assets) 4 0
        (some ⟨⟨Frame.Cthulhu1, 1⟩, ⟨27, 128⟩, 10⟩), ⟨4, 0⟩, Bounds.start⟩,
      timing := 0 }, update_eq_some c e1, rfl, ?_, ?_, rfl, rfl, rfl⟩
  · show gridGet (setCell (make_invader_grid assets) 4 0
        (some ⟨⟨Frame.Cthulhu1, 1⟩, ⟨27, 128⟩, 10⟩)) 4 0 = _
    rw [gridGet_setCell_same hshape (show (4 : Nat) < ROWS by decide)
      (show (0 : Nat) < COLS by decide)]
  · intro r k hrk
    show gridGet (setCell (make_invader_grid assets) 4 0
        (some ⟨⟨Frame.Cthulhu1, 1⟩, ⟨27, 128⟩, 10⟩)) r k = _
    exact gridGet_setCell_other hshape (show (4 : Nat) < ROWS by decide) _ r k
      (fun hh => hrk ⟨hh.1.symm, hh.2.symm⟩)

set_option maxRecDepth 4000 in
/-- Witness for C7 at a concrete asset table and neutral controls. -/
theorem single_tick_effect_witness :
    1 < (sampleAssets.meta Frame.Cthulhu1).frame_count ∧
    ∃ w' : World,
      (World.new sampleAssets).update 16666667 ⟨Direction.Neutral, false⟩ = some (w', 1) ∧
      w'.invaders.grid = setCell (make_invader_grid sampleAssets) 4 0
        (some ⟨⟨Frame.Cthulhu1, 1⟩, ⟨27, 128⟩, 10⟩) ∧
      gridGet w'.invaders.grid 4 0 = some ⟨⟨Frame.Cthulhu1, 1⟩, ⟨27, 128⟩, 10⟩ ∧
      (∀ r k : Nat, ¬(r = 4 ∧ k = 0) →
        gridGet w'.invaders.grid r k = gridGet (make_invader_grid sampleAssets) r k) ∧
      w'.score = (World.new sampleAssets).score ∧
      w'.player = (World.new sampleAssets).player ∧
      w'.timing = 0 :=
  ⟨by decide, single_tick_effect sampleAssets ⟨Direction.Neutral, false⟩ (by decide)⟩
